import Mathlib

/-!
Verification of the survey-frontend client controller (src/src/App.tsx).

The development shallowly embeds the second (current) version of `App.tsx`:
its data types, the API error normalization in `apiFetch`, the submission
failure-message mapping `mapApiErrorMessage`, the source-context merge in
`handleVote`, the sequential vote loop in `handleVote`, the structure-load
outcome handling in `fetchStructure`, and the component's event-driven state
machine (popstate navigation, structure-load resolution, option selection,
vote submission).  TypeScript `number` is modelled as `Nat` (all ids and
statuses in play are non-negative integers), `string` as `String`,
`x | null | undefined` as `Option`, thrown `ApiError`s as `Except`.
JavaScript truthiness on strings (`'' || y`) is modelled explicitly.
The source type named `Option` is rendered as `SurveyOption` since `Option`
is taken in Lean; the React state variable `structure` is rendered as
`structure_` since `structure` is a Lean keyword.
-/

namespace SurveyFrontend

/-- Survey answer option (source type `Option`, renamed: Lean reserves it). -/
structure SurveyOption where
  id : Nat
  texto : String
  ativo : Bool
deriving DecidableEq

/-- Survey question (source type `Question`). -/
structure Question where
  id : Nat
  texto : String
  ordem : Nat
  options : List SurveyOption
deriving DecidableEq

/-- Survey structure as fetched (source type `SurveyStructure`). -/
structure SurveyStructure where
  id : Nat
  titulo : String
  descricao : Option String
  description : Option String
  ativo : Bool
  dataValidade : Option String
  questions : List Question
deriving DecidableEq

/-- Per-question vote result (source type `VoteResponse`). -/
structure VoteResponse where
  voteId : Nat
  sessionId : Option Nat
  antifraudToken : Option String
deriving DecidableEq

/-- Normalized API error (source type `ApiError`). -/
structure ApiError where
  status : Option Nat
  message : String
  details : Option String
deriving DecidableEq

/-- Vote payload sent to `POST /api/votes` (source type `VotePayload`). -/
structure VotePayload where
  surveyId : Nat
  questionId : Nat
  optionId : Nat
  source : Option String
  country : Option String
  state : Option String
  city : Option String
  deviceType : Option String
  operatingSystem : Option String
  browser : Option String
  status : String
  startedAt : String
  completedAt : String
deriving DecidableEq

/-- The seven persisted/derived source-context fields
(`Partial<VotePayload>` as used by `getStoredSourceContext` and the merge
in `handleVote`). -/
structure SourceContext where
  source : Option String
  country : Option String
  state : Option String
  city : Option String
  deviceType : Option String
  operatingSystem : Option String
  browser : Option String
deriving DecidableEq

/-! ## JavaScript truthiness helpers

`x || y` on strings treats both `null`/`undefined` and `''` as falsy. -/

/-- Truthiness of a JS string-or-null value: `null`, `undefined` and `''`
are falsy. -/
def jsTruthy : Option String → Bool
  | none => false
  | some s => !(s == "")

/-- `x || d` where `x : string | null` and `d` is a string default. -/
def jsFalsyOr (x : Option String) (d : String) : String :=
  match x with
  | none => d
  | some s => if s = "" then d else s

/-- `x || d` where both sides are plain strings (`err.message || d`). -/
def jsStrOr (x d : String) : String :=
  if x = "" then d else x

/-- `x || null` on a string-or-null value (`err.details || null`). -/
def jsOrNull (x : Option String) : Option String :=
  match x with
  | none => none
  | some s => if s = "" then none else some s

/-- `a || b || null`: the per-field merge expression in `handleVote`
(`fresh || stored?.field || null`). -/
def jsOr3 (a b : Option String) : Option String :=
  if jsTruthy a then a else if jsTruthy b then b else none

/-! ## String utilities used by `mapApiErrorMessage` -/

/-- Whether `pat` is an initial segment of `l` (char-list level). -/
def listStartsWith : List Char → List Char → Bool
  | [], _ => true
  | _ :: _, [] => false
  | a :: as, b :: bs => a == b && listStartsWith as bs

/-- Whether `pat` occurs inside `l` (char-list level). -/
def listHasSub (pat : List Char) : List Char → Bool
  | [] => pat.isEmpty
  | c :: cs => listStartsWith pat (c :: cs) || listHasSub pat cs

/-- JS `hay.includes(pat)`. -/
def strIncludes (hay pat : String) : Bool :=
  listHasSub pat.toList hay.toList

/-- JS `toLowerCase` restricted to the alphabets appearing in the app's
messages: ASCII `A`-`Z` and the Latin-1 accented uppercase range
`À`-`Þ` (excluding the multiplication sign) map down by 32. -/
def jsCharLower (c : Char) : Char :=
  if 'A' ≤ c ∧ c ≤ 'Z' then Char.ofNat (c.toNat + 32)
  else if 'À' ≤ c ∧ c ≤ 'Þ' ∧ c ≠ '×' then Char.ofNat (c.toNat + 32)
  else c

/-- JS `s.toLowerCase()` over the character ranges the app uses. -/
def jsToLower (s : String) : String :=
  String.mk (s.toList.map jsCharLower)

/-! ## User-facing message constants (verbatim from the source) -/

def notFoundMsg : String := "Pesquisa não encontrada ou expirada."
def genericActionMsg : String := "Não foi possível completar a ação."
def notActiveMsg : String := "Esta pesquisa não está ativa."
def loadFailMsg : String := "Não foi possível carregar a pesquisa selecionada."
def validationAllMsg : String := "Responda todas as perguntas para enviar seu voto."
def selectPromptMsg : String := "Selecione uma pergunta e uma opção para votar."
def voteFailDefaultMsg : String := "Não foi possível registrar seu voto."
def tooManyMsg : String := "Muitas requisições. Tente novamente em 1 minuto."
def alreadyVotedMsg : String := "Você já votou recentemente nesta pesquisa neste dispositivo."
def expiredMsg : String := "Esta pesquisa expirou."
def urlMissingMsg : String := "URL da pesquisa não informada. Use /surveys/\x7bid\x7d."
def alreadyVotedPat : String := "já recebemos um voto"
def expiredPat : String := "expirada"

/-! ## Error normalizer (`apiFetch`, non-ok branch) -/

/-- The shape of the optional JSON error body consumed by `apiFetch`:
`message` is kept only when it is a string (`typeof body?.message ===
'string'`), `details` is a string, an array, or anything else (treated
as absent). -/
inductive RawDetails where
  | str (s : String)
  | list (l : List String)
  | absent
deriving DecidableEq

/-- Optional JSON error body of a non-ok response. -/
structure RawBody where
  message : Option String
  details : RawDetails
deriving DecidableEq

/-- `apiFetch`'s non-ok branch: builds the `ApiError` thrown for a
response with the given HTTP `status` and optional JSON `body`. -/
def normalizeApiError (status : Nat) (body : Option RawBody) : ApiError :=
  let rawMessage : Option String := body.bind (·.message)
  let message : String :=
    if status = 404 then notFoundMsg
    else jsFalsyOr rawMessage genericActionMsg
  let details : Option String :=
    match body with
    | none => none
    | some b =>
      match b.details with
      | RawDetails.str s => some s
      | RawDetails.list l => some (String.intercalate " | " l)
      | RawDetails.absent => none
  { status := some status, message := message, details := details }

/-! ## Submission failure-message mapping (`mapApiErrorMessage`) -/

/-- `mapApiErrorMessage`: rewrites the message of an `ApiError` for the
vote-submission failure cases. -/
def mapApiErrorMessage (e : ApiError) : ApiError :=
  let normalized := jsToLower e.message
  if e.status = some 429 then { e with message := tooManyMsg }
  else if strIncludes normalized alreadyVotedPat || e.status = some 409 then
    { e with message := alreadyVotedMsg }
  else if strIncludes normalized expiredPat then { e with message := expiredMsg }
  else e

/-- The full submission-failure pipeline as a function of the HTTP status
and the response body: normalization in `apiFetch` followed by
`mapApiErrorMessage` in `handleVote`'s catch. -/
def submissionError (status : Nat) (body : Option RawBody) : ApiError :=
  mapApiErrorMessage (normalizeApiError status body)

/-! ## Selection state

The React state `selectedOptions : Record<number, number>` is modelled as
an association list; assignment prepends, lookup takes the first hit. -/

/-- `selectedOptions[qid]`: the recorded option id for a question, if any. -/
def selLookup (sel : List (Nat × Nat)) (qid : Nat) : Option Nat :=
  (sel.find? (fun p => p.1 == qid)).map (·.2)

/-- JS `!selectedOptions[qid]`: falsy when the entry is absent
(`undefined`) or when the recorded option id is `0`. -/
def selFalsy (sel : List (Nat × Nat)) (qid : Nat) : Bool :=
  match selLookup sel qid with
  | none => true
  | some v => v == 0

/-! ## Source-context merge (`handleVote`, lines 662-672) -/

/-- `stored?.field`: optional chaining through the possibly-absent
persisted snapshot. -/
def storedField (stored : Option SourceContext) (f : SourceContext → Option String) :
    Option String :=
  match stored with
  | none => none
  | some c => f c

/-- The context merge performed at the start of a submission attempt:
for each of the seven fields, `fresh || stored?.field || null`. -/
def mergedContext (fresh : SourceContext) (stored : Option SourceContext) :
    SourceContext where
  source := jsOr3 fresh.source (storedField stored (·.source))
  country := jsOr3 fresh.country (storedField stored (·.country))
  state := jsOr3 fresh.state (storedField stored (·.state))
  city := jsOr3 fresh.city (storedField stored (·.city))
  deviceType := jsOr3 fresh.deviceType (storedField stored (·.deviceType))
  operatingSystem := jsOr3 fresh.operatingSystem (storedField stored (·.operatingSystem))
  browser := jsOr3 fresh.browser (storedField stored (·.browser))

/-! ## Vote submission loop (`handleVote`, lines 676-696) -/

/-- The JSON body built for one question's `POST /api/votes`. -/
def mkVotePayload (sid : Nat) (ctx : SourceContext) (startedAt completedAt : String)
    (sel : List (Nat × Nat)) (q : Question) : VotePayload where
  surveyId := sid
  questionId := q.id
  optionId := (selLookup sel q.id).getD 0
  source := ctx.source
  country := ctx.country
  state := ctx.state
  city := ctx.city
  deviceType := ctx.deviceType
  operatingSystem := ctx.operatingSystem
  browser := ctx.browser
  status := "COMPLETED"
  startedAt := startedAt
  completedAt := completedAt

/-- The sequential `for … await` loop of `handleVote`.  `submit` is the
network: it maps the index of the call within the attempt and the payload
to the request's outcome.  Returns the list of requests actually issued
(in issue order) and either the first error or the accumulated responses.
Request `i + 1` is built and issued only in the branch where request `i`
resolved successfully, mirroring the suspension point of the `await`. -/
def voteLoop (submit : Nat → VotePayload → Except ApiError VoteResponse)
    (sid : Nat) (ctx : SourceContext) (startedAt completedAt : String)
    (sel : List (Nat × Nat)) :
    Nat → List Question → List VotePayload × Except ApiError (List VoteResponse)
  | _, [] => ([], Except.ok [])
  | i, q :: rest =>
    let p := mkVotePayload sid ctx startedAt completedAt sel q
    match submit i p with
    | Except.error e => ([p], Except.error e)
    | Except.ok r =>
      let next := voteLoop submit sid ctx startedAt completedAt sel (i + 1) rest
      (p :: next.1,
        match next.2 with
        | Except.error e => Except.error e
        | Except.ok rs => Except.ok (r :: rs))

/-! ## The vote submission controller (`handleVote`) -/

/-- The slice of component state written by one `handleVote` call, plus
the observable effects of the attempt: the requests issued and the
context persisted to local storage. -/
structure VotePost where
  errorMessage : Option String
  errorDetails : Option String
  errorStatus : Option Nat
  voteResults : List VoteResponse
  missingQuestionIds : List Nat
  showThankYou : Bool
  requests : List VotePayload
  persistedContext : Option SourceContext
deriving DecidableEq

/-- `handleVote`: guard, validation, context merge, sequential loop, and
the success / failure state updates.  `prev` carries the state fields the
function leaves untouched on the early-return paths. -/
def handleVote (prev : VotePost) (structure_ : Option SurveyStructure)
    (surveyId : Option Nat) (sel : List (Nat × Nat))
    (fresh : SourceContext) (stored : Option SourceContext)
    (startedAt completedAt : String)
    (submit : Nat → VotePayload → Except ApiError VoteResponse) : VotePost :=
  match structure_, surveyId with
  | some st, some sid =>
    let unanswered := st.questions.filter (fun q => selFalsy sel q.id)
    if unanswered.length > 0 then
      { prev with
        errorMessage := some validationAllMsg
        errorDetails := none
        errorStatus := none
        missingQuestionIds := unanswered.map (·.id)
        requests := []
        persistedContext := none }
    else
      let ctx := mergedContext fresh stored
      match voteLoop submit sid ctx startedAt completedAt sel 0 st.questions with
      | (t, Except.ok rs) =>
        { errorMessage := none
          errorDetails := none
          errorStatus := prev.errorStatus
          voteResults := rs
          missingQuestionIds := []
          showThankYou := true
          requests := t
          persistedContext := some ctx }
      | (t, Except.error e) =>
        let e2 := mapApiErrorMessage e
        { errorMessage := some (jsStrOr e2.message voteFailDefaultMsg)
          errorDetails := jsOrNull e2.details
          errorStatus := e2.status
          voteResults := []
          missingQuestionIds := []
          showThankYou := false
          requests := t
          persistedContext := none }
  | _, _ =>
    { prev with
      errorMessage := some selectPromptMsg
      errorDetails := none
      errorStatus := none
      requests := []
      persistedContext := none }

/-- Spec-side notion of the unanswered questions: those with no entry in
the selection map (the spec's selection state has "one entry per answered
question, no entry for unanswered ones").  Used to compare the claimed
missing-question id list with the one the code computes. -/
def specUnansweredIds (st : SurveyStructure) (sel : List (Nat × Nat)) : List Nat :=
  (st.questions.filter (fun q => (selLookup sel q.id).isNone)).map (·.id)

/-! ## Component state machine

All React state of `App`, plus bookkeeping for in-flight asynchronous
work: `pendingLoads` holds the survey ids of structure fetches that have
been issued and not yet resolved (the effect installs no cancellation, so
a resolution for any pending id — current or stale — is applied), and
`pendingVote` records that a `handleVote` attempt is awaiting the network.
Events model the cooperative, single-threaded scheduling: each event is
one synchronous continuation run to completion. -/

structure AppState where
  surveyId : Option Nat
  structure_ : Option SurveyStructure
  selectedOptions : List (Nat × Nat)
  structureLoading : Bool
  submitting : Bool
  errorMessage : Option String
  errorDetails : Option String
  errorStatus : Option Nat
  voteResults : List VoteResponse
  missingQuestionIds : List Nat
  showThankYou : Bool
  pendingLoads : List Nat
  pendingVote : Bool
deriving DecidableEq

/-- State with every field empty (before the mount effect runs). -/
def blankAppState : AppState where
  surveyId := none
  structure_ := none
  selectedOptions := []
  structureLoading := false
  submitting := false
  errorMessage := none
  errorDetails := none
  errorStatus := none
  voteResults := []
  missingQuestionIds := []
  showThankYou := false
  pendingLoads := []
  pendingVote := false

/-- The synchronous part of the `fetchStructure` effect body: the missing
identifier branch, or the resets plus the issuing of the structure request
(the `await` suspends; resolution is a separate `loadArrive` event). -/
def startLoad (s : AppState) : AppState :=
  match s.surveyId with
  | none =>
    { s with structure_ := none, errorMessage := some urlMissingMsg, errorStatus := none }
  | some i =>
    { s with
      structureLoading := true
      structure_ := none
      selectedOptions := []
      errorMessage := none
      errorDetails := none
      errorStatus := none
      voteResults := []
      missingQuestionIds := []
      showThankYou := false
      pendingLoads := i :: s.pendingLoads }

/-- State after the component mounts with the given parsed path id and the
load effect runs once. -/
def initialAppState (oid : Option Nat) : AppState :=
  startLoad { blankAppState with surveyId := oid }

/-- The `popstate` handler's state resets. -/
def popReset (oid : Option Nat) (s : AppState) : AppState :=
  { s with
    surveyId := oid
    selectedOptions := []
    voteResults := []
    errorMessage := none
    errorDetails := none
    errorStatus := none
    missingQuestionIds := []
    showThankYou := false }

/-- Continuation of `fetchStructure` after its request resolves: the
`ativo` check and success / failure state updates, then the `finally`
clearing the loading flag.  Applied unconditionally — the code has no
staleness guard. -/
def applyLoadOutcome (outcome : Except ApiError SurveyStructure) (s : AppState) :
    AppState :=
  let s2 :=
    match outcome with
    | Except.ok data =>
      if data.ativo then { s with structure_ := some data }
      else
        { s with
          structure_ := none
          errorMessage := some notActiveMsg
          errorDetails := none
          errorStatus := none }
    | Except.error e =>
      { s with
        errorMessage := some (jsStrOr e.message loadFailMsg)
        errorDetails := jsOrNull e.details
        errorStatus := e.status }
  { s2 with structureLoading := false }

/-- The synchronous part of `handleVote` on the component state: guard,
validation, or the start-of-submission resets with the vote loop left
in flight. -/
def voteStartStep (s : AppState) (st : SurveyStructure) : AppState :=
  match s.surveyId with
  | none =>
    { s with errorMessage := some selectPromptMsg, errorDetails := none, errorStatus := none }
  | some _ =>
    let unanswered := st.questions.filter (fun q => selFalsy s.selectedOptions q.id)
    if unanswered.length > 0 then
      { s with
        errorMessage := some validationAllMsg
        errorDetails := none
        errorStatus := none
        missingQuestionIds := unanswered.map (·.id) }
    else
      { s with
        submitting := true
        errorMessage := none
        errorDetails := none
        voteResults := []
        missingQuestionIds := []
        showThankYou := false
        pendingVote := true }

/-- Events driving the component: browser navigation, resolution of an
in-flight structure load (possibly stale), a radio-option click, the
submit click, and resolution of an in-flight submission attempt. -/
inductive AppEvent where
  | popNav (oid : Option Nat)
  | loadArrive (sid : Nat) (outcome : Except ApiError SurveyStructure)
  | selectOpt (qid oid : Nat)
  | voteStart
  | voteFinish (outcome : Except ApiError (List VoteResponse))

/-- One event step.  `none` means the event cannot fire in this state
(its trigger is not rendered / its continuation is not pending).
`popNav` runs the handler resets and, when the identifier actually
changed, the load effect; `loadArrive` requires a matching pending load;
`selectOpt` requires the form to be rendered with that question/option;
`voteStart` requires the rendered, enabled submit button; `voteFinish`
requires a pending attempt and applies `handleVote`'s success or catch
branch. -/
def appStep (s : AppState) : AppEvent → Option AppState
  | AppEvent.popNav oid =>
    let s1 := popReset oid s
    some (if oid = s.surveyId then s1 else startLoad s1)
  | AppEvent.loadArrive sid outcome =>
    if s.pendingLoads.contains sid then
      some (applyLoadOutcome outcome { s with pendingLoads := s.pendingLoads.erase sid })
    else none
  | AppEvent.selectOpt qid oid =>
    match s.structure_ with
    | some st =>
      if !s.showThankYou && !(s.errorStatus == some 404) &&
          st.questions.any (fun q => q.id == qid && q.options.any (fun o => o.id == oid)) then
        some
          { s with
            selectedOptions := (qid, oid) :: s.selectedOptions
            voteResults := []
            errorMessage := none
            errorDetails := none
            missingQuestionIds := s.missingQuestionIds.filter (fun i => i != qid) }
      else none
    | none => none
  | AppEvent.voteStart =>
    match s.structure_ with
    | some st =>
      if !s.showThankYou && !(s.errorStatus == some 404) && !s.submitting &&
          !st.questions.isEmpty then
        some (voteStartStep s st)
      else none
    | none => none
  | AppEvent.voteFinish outcome =>
    if s.pendingVote then
      some
        (match outcome with
        | Except.ok rs =>
          { s with
            voteResults := rs
            showThankYou := true
            submitting := false
            pendingVote := false }
        | Except.error e =>
          let e2 := mapApiErrorMessage e
          { s with
            errorMessage := some (jsStrOr e2.message voteFailDefaultMsg)
            errorDetails := jsOrNull e2.details
            errorStatus := e2.status
            submitting := false
            pendingVote := false })
    else none

/-- Run a list of events from a state; fails if any event cannot fire. -/
def runEvents (s : AppState) : List AppEvent → Option AppState
  | [] => some s
  | e :: es =>
    match appStep s e with
    | some s2 => runEvents s2 es
    | none => none

/-- Reachable component states: an initial mount followed by any firable
event sequence. -/
inductive Reachable : AppState → Prop where
  | init (oid : Option Nat) : Reachable (initialAppState oid)
  | step {s s' : AppState} (e : AppEvent) :
      Reachable s → appStep s e = some s' → Reachable s'

/-! ## View outcomes (the render function's shape) -/

/-- The thank-you screen is returned (first early return). -/
def rendersThankYou (s : AppState) : Prop := s.showThankYou = true

/-- The 404 screen is returned (second early return). -/
def rendersNotFound (s : AppState) : Prop :=
  s.showThankYou = false ∧ s.errorStatus = some 404

/-- The form page is returned. -/
def rendersForm (s : AppState) : Prop :=
  s.showThankYou = false ∧ s.errorStatus ≠ some 404

/-- The success-feedback panel is displayed (form page, non-empty result
list). -/
def formSuccessPanel (s : AppState) : Prop :=
  rendersForm s ∧ s.voteResults ≠ []

/-- The error-feedback panel is displayed (form page, non-null error
message). -/
def formErrorPanel (s : AppState) : Prop :=
  rendersForm s ∧ s.errorMessage ≠ none

/-- The form page with neither feedback panel. -/
def formNeutral (s : AppState) : Prop :=
  rendersForm s ∧ s.voteResults = [] ∧ s.errorMessage = none

/-! ## Theorems -/

/-- Helper: case analysis of the `a || b || null` merge expression. -/
theorem jsOr3_cases (a b : Option String) :
    (jsTruthy a = true → jsOr3 a b = a) ∧
    (jsTruthy a = false → jsTruthy b = true → jsOr3 a b = b) ∧
    (jsTruthy a = false → jsTruthy b = false → jsOr3 a b = none) := by
  refine ⟨fun h => ?_, fun h h2 => ?_, fun h h2 => ?_⟩
  · simp [jsOr3, h]
  · simp [jsOr3, h, h2]
  · simp [jsOr3, h, h2]

/-- Helper: case analysis of `mapApiErrorMessage` as a pure function of
the error's status and message. -/
theorem mapApiErrorMessage_cases (e : ApiError) :
    (e.status = some 429 → (mapApiErrorMessage e).message = tooManyMsg) ∧
    (e.status ≠ some 429 →
      (strIncludes (jsToLower e.message) alreadyVotedPat = true ∨ e.status = some 409) →
      (mapApiErrorMessage e).message = alreadyVotedMsg) ∧
    (e.status ≠ some 429 → e.status ≠ some 409 →
      strIncludes (jsToLower e.message) alreadyVotedPat = false →
      strIncludes (jsToLower e.message) expiredPat = true →
      (mapApiErrorMessage e).message = expiredMsg) ∧
    (e.status ≠ some 429 → e.status ≠ some 409 →
      strIncludes (jsToLower e.message) alreadyVotedPat = false →
      strIncludes (jsToLower e.message) expiredPat = false →
      (mapApiErrorMessage e).message = e.message) := by
  refine ⟨fun h => ?_, fun h h2 => ?_, fun h h2 h3 h4 => ?_, fun h h2 h3 h4 => ?_⟩
  · simp [mapApiErrorMessage, h]
  · rcases h2 with h2 | h2 <;> simp [mapApiErrorMessage, h, h2]
  · simp [mapApiErrorMessage, h, h2, h3, h4]
  · simp [mapApiErrorMessage, h, h2, h3, h4]

/-- The amended merge contract for one field: the result is the fresh
value when that is truthy (non-null and non-empty), else the stored value
when that is truthy, else absent. -/
def mergesField (a b r : Option String) : Prop :=
  (jsTruthy a = true → r = a) ∧
  (jsTruthy a = false → jsTruthy b = true → r = b) ∧
  (jsTruthy a = false → jsTruthy b = false → r = none)

/-- C5 (counterexample): the claim "message is the per-status default only
when the body carries no message string, otherwise the body's message is
passed through" is false on the code: for status 404 the fixed not-found
default is used even though the body carries the message string "custom",
and for status 500 an empty-string body message (a message string) is
replaced by the generic default rather than passed through. -/
theorem normalize_message_not_passed_through :
    (normalizeApiError 404 (some ⟨some "custom", RawDetails.absent⟩)).message ≠ "custom" ∧
    (normalizeApiError 500 (some ⟨some "", RawDetails.absent⟩)).message ≠ "" := by
  decide

/-- C5 (amended): the error normalizer produces `{status, message,
details}` where `details` is the body's details string, or its elements
joined with " | " when a list, else absent; and `message` is the fixed
not-found default whenever the status is 404 (regardless of any body
message), otherwise the body's message when it is a non-empty string, else
the generic default. -/
theorem normalizeApiError_spec (status : Nat) (body : Option RawBody) :
    ((normalizeApiError status body).status = some status) ∧
    (status = 404 → (normalizeApiError status body).message = notFoundMsg) ∧
    (status ≠ 404 → ∀ m, body.bind (·.message) = some m → m ≠ "" →
      (normalizeApiError status body).message = m) ∧
    (status ≠ 404 → body.bind (·.message) = none →
      (normalizeApiError status body).message = genericActionMsg) ∧
    (status ≠ 404 → body.bind (·.message) = some "" →
      (normalizeApiError status body).message = genericActionMsg) ∧
    (∀ b s, body = some b → b.details = RawDetails.str s →
      (normalizeApiError status body).details = some s) ∧
    (∀ b l, body = some b → b.details = RawDetails.list l →
      (normalizeApiError status body).details = some (String.intercalate " | " l)) ∧
    (∀ b, body = some b → b.details = RawDetails.absent →
      (normalizeApiError status body).details = none) ∧
    (body = none → (normalizeApiError status body).details = none) := by
  refine ⟨rfl, fun h => ?_, fun h m hm hme => ?_, fun h hm => ?_, fun h hm => ?_,
    fun b s hb hd => ?_, fun b l hb hd => ?_, fun b hb hd => ?_, fun hb => ?_⟩
  · simp [normalizeApiError, h]
  · simp [normalizeApiError, h, hm, jsFalsyOr, hme]
  · simp [normalizeApiError, h, hm, jsFalsyOr]
  · simp [normalizeApiError, h, hm, jsFalsyOr]
  · subst hb; simp [normalizeApiError, hd]
  · subst hb; simp [normalizeApiError, hd]
  · subst hb; simp [normalizeApiError, hd]
  · subst hb; simp [normalizeApiError]

/-- C5 witness: the amended normalizer contract evaluated at status 500
with body message "ops" and a details list. -/
theorem normalizeApiError_spec_witness :
    (normalizeApiError 500 (some ⟨some "ops", RawDetails.list ["a", "b"]⟩)).message = "ops" ∧
    (normalizeApiError 500 (some ⟨some "ops", RawDetails.list ["a", "b"]⟩)).details =
      some (String.intercalate " | " ["a", "b"]) := by
  refine ⟨?_, ?_⟩
  · exact (normalizeApiError_spec 500 (some ⟨some "ops", RawDetails.list ["a", "b"]⟩)).2.2.1
      (by decide) "ops" rfl (by decide)
  · exact (normalizeApiError_spec 500 (some ⟨some "ops", RawDetails.list ["a", "b"]⟩)).2.2.2.2.2.2.1
      ⟨some "ops", RawDetails.list ["a", "b"]⟩ ["a", "b"] rfl rfl

/-- C6 (counterexample): the claim "status 404 maps to the survey not
found or expired message" is false on the code: for a 404 submission
failure the pipeline produces the expired message, because the
normalizer's 404 default message contains the expiry keyword and the
expiry rule of `mapApiErrorMessage` rewrites it. -/
theorem submissionError_404_gives_expired :
    (submissionError 404 none).message = expiredMsg ∧
    (submissionError 404 none).message ≠ notFoundMsg := by
  decide

/-- C6 (amended): the submission failure-message mapping is a pure
function of the HTTP status and response body: 429 yields the
too-many-requests message; otherwise 409 or a message indicating "already
voted" yields the already-voted message; otherwise a message indicating
expiry yields the expired message; status 404 always yields the expired
message (the 404 default message itself indicates expiry); any other
input passes the normalized message through (the server message when it
is a non-empty string, else the generic fallback). -/
theorem submissionError_spec (status : Nat) (body : Option RawBody) :
    (status = 429 → (submissionError status body).message = tooManyMsg) ∧
    (status ≠ 429 →
      (status = 409 ∨
        strIncludes (jsToLower (normalizeApiError status body).message) alreadyVotedPat = true) →
      (submissionError status body).message = alreadyVotedMsg) ∧
    (status ≠ 429 → status ≠ 409 →
      strIncludes (jsToLower (normalizeApiError status body).message) alreadyVotedPat = false →
      strIncludes (jsToLower (normalizeApiError status body).message) expiredPat = true →
      (submissionError status body).message = expiredMsg) ∧
    (status = 404 → (submissionError status body).message = expiredMsg) ∧
    (status ≠ 429 → status ≠ 409 →
      strIncludes (jsToLower (normalizeApiError status body).message) alreadyVotedPat = false →
      strIncludes (jsToLower (normalizeApiError status body).message) expiredPat = false →
      (submissionError status body).message = (normalizeApiError status body).message) := by
  have hst : (normalizeApiError status body).status = some status := rfl
  have hc := mapApiErrorMessage_cases (normalizeApiError status body)
  refine ⟨fun h => ?_, fun h h2 => ?_, fun h h2 h3 h4 => ?_, fun h => ?_,
    fun h h2 h3 h4 => ?_⟩
  · exact hc.1 (by rw [hst, h])
  · refine hc.2.1 (by rw [hst]; simp [h]) ?_
    rcases h2 with h2 | h2
    · exact Or.inr (by rw [hst, h2])
    · exact Or.inl h2
  · exact hc.2.2.1 (by rw [hst]; simp [h]) (by rw [hst]; simp [h2]) h3 h4
  · subst h
    have hmsg : (normalizeApiError 404 body).message = notFoundMsg := rfl
    refine hc.2.2.1 (by rw [hst]; simp) (by rw [hst]; simp) ?_ ?_
    · rw [hmsg]; decide
    · rw [hmsg]; decide
  · exact hc.2.2.2 (by rw [hst]; simp [h]) (by rw [hst]; simp [h2]) h3 h4

/-- C6 witness: the amended mapping evaluated at concrete inputs — a 429
failure, and a plain 500 failure whose message passes through. -/
theorem submissionError_spec_witness :
    (submissionError 429 none).message = tooManyMsg ∧
    (submissionError 500 (some ⟨some "ops", RawDetails.absent⟩)).message = "ops" := by
  refine ⟨(submissionError_spec 429 none).1 rfl, ?_⟩
  have h := (submissionError_spec 500 (some ⟨some "ops", RawDetails.absent⟩)).2.2.2.2
    (by decide) (by decide) (by decide) (by decide)
  rw [h]
  decide

/-- C7: for every fetched survey whose `ativo` flag is false, the loader
stores no structure (the view never receives its questions) and sets only
the "not active" message, with no error status and no details. -/
theorem inactive_survey_not_stored (s : AppState) (data : SurveyStructure)
    (h : data.ativo = false) :
    (applyLoadOutcome (Except.ok data) s).structure_ = none ∧
    (applyLoadOutcome (Except.ok data) s).errorMessage = some notActiveMsg ∧
    (applyLoadOutcome (Except.ok data) s).errorDetails = none ∧
    (applyLoadOutcome (Except.ok data) s).errorStatus = none := by
  simp [applyLoadOutcome, h]

/-- C7 witness: the inactive-survey contract evaluated on a concrete
inactive survey arriving over the blank state. -/
theorem inactive_survey_not_stored_witness :
    (⟨3, "t", none, none, false, none, []⟩ : SurveyStructure).ativo = false ∧
    (applyLoadOutcome (Except.ok ⟨3, "t", none, none, false, none, []⟩)
      blankAppState).structure_ = none ∧
    (applyLoadOutcome (Except.ok ⟨3, "t", none, none, false, none, []⟩)
      blankAppState).errorMessage = some notActiveMsg :=
  ⟨rfl,
    (inactive_survey_not_stored blankAppState ⟨3, "t", none, none, false, none, []⟩ rfl).1,
    (inactive_survey_not_stored blankAppState ⟨3, "t", none, none, false, none, []⟩ rfl).2.1⟩

/-- C8 (counterexample): the claim "each field equals the fresh value when
that value is non-null" is false on the code: a fresh country of the empty
string (non-null) is overridden by the stored country "BR", because the
merge uses JS truthiness, not a null test. -/
theorem mergedContext_empty_string_not_fresh :
    (⟨none, some "", none, some "SP", none, none, none⟩ : SourceContext).country ≠ none ∧
    (mergedContext ⟨none, some "", none, some "SP", none, none, none⟩
        (some ⟨none, some "BR", none, none, none, none, none⟩)).country ≠
      (⟨none, some "", none, some "SP", none, none, none⟩ : SourceContext).country := by
  decide

/-- C8 (amended): the context used for vote payloads merges fresh values
over stored ones with fresh taking precedence only when truthy (non-null
and non-empty): each field equals the fresh value when truthy, else the
stored value when truthy, else absent; in particular stored
country "BR" merged with fresh country null and city "SP" yields
country "BR" and city "SP". -/
theorem mergedContext_spec (fresh : SourceContext) (stored : Option SourceContext) :
    mergesField fresh.source (storedField stored (·.source))
      ((mergedContext fresh stored).source) ∧
    mergesField fresh.country (storedField stored (·.country))
      ((mergedContext fresh stored).country) ∧
    mergesField fresh.state (storedField stored (·.state))
      ((mergedContext fresh stored).state) ∧
    mergesField fresh.city (storedField stored (·.city))
      ((mergedContext fresh stored).city) ∧
    mergesField fresh.deviceType (storedField stored (·.deviceType))
      ((mergedContext fresh stored).deviceType) ∧
    mergesField fresh.operatingSystem (storedField stored (·.operatingSystem))
      ((mergedContext fresh stored).operatingSystem) ∧
    mergesField fresh.browser (storedField stored (·.browser))
      ((mergedContext fresh stored).browser) ∧
    (mergedContext ⟨none, none, none, some "SP", none, none, none⟩
        (some ⟨none, some "BR", none, none, none, none, none⟩)).country = some "BR" ∧
    (mergedContext ⟨none, none, none, some "SP", none, none, none⟩
        (some ⟨none, some "BR", none, none, none, none, none⟩)).city = some "SP" :=
  ⟨jsOr3_cases _ _, jsOr3_cases _ _, jsOr3_cases _ _, jsOr3_cases _ _, jsOr3_cases _ _,
    jsOr3_cases _ _, jsOr3_cases _ _, by decide, by decide⟩

/-- C8 witness: the amended merge contract evaluated at fresh
city "SP" over stored country "BR". -/
theorem mergedContext_spec_witness :
    (mergedContext ⟨none, none, none, some "SP", none, none, none⟩
        (some ⟨none, some "BR", none, none, none, none, none⟩)).city = some "SP" ∧
    (mergedContext ⟨none, none, none, some "SP", none, none, none⟩
        (some ⟨none, some "BR", none, none, none, none, none⟩)).country = some "BR" := by
  refine ⟨?_, (mergedContext_spec ⟨none, none, none, some "SP", none, none, none⟩
    (some ⟨none, some "BR", none, none, none, none, none⟩)).2.2.2.2.2.2.2.1⟩
  exact (mergedContext_spec ⟨none, none, none, some "SP", none, none, none⟩
    (some ⟨none, some "BR", none, none, none, none, none⟩)).2.2.2.1.1 rfl

/-- Helper: if the first `k` requests of the loop succeed and request `k`
fails, the loop issues exactly the first `k + 1` requests and returns that
error. -/
theorem voteLoop_first_error
    (submit : Nat → VotePayload → Except ApiError VoteResponse)
    (sid : Nat) (ctx : SourceContext) (t0 t1 : String) (sel : List (Nat × Nat)) :
    ∀ (qs : List Question) (i k : Nat) (hk : k < qs.length) (e : ApiError),
    (∀ j (hj : j < k), ∃ r, submit (i + j)
      (mkVotePayload sid ctx t0 t1 sel (qs.get ⟨j, Nat.lt_trans hj hk⟩)) = Except.ok r) →
    submit (i + k) (mkVotePayload sid ctx t0 t1 sel (qs.get ⟨k, hk⟩)) = Except.error e →
    (voteLoop submit sid ctx t0 t1 sel i qs).1.length = k + 1 ∧
    (voteLoop submit sid ctx t0 t1 sel i qs).2 = Except.error e := by
  intro qs
  induction qs with
  | nil => intro i k hk; exact absurd hk (by simp)
  | cons q rest ih =>
    intro i k hk e hok herr
    cases k with
    | zero =>
      have herr' : submit i (mkVotePayload sid ctx t0 t1 sel q) = Except.error e := by
        simpa using herr
      simp [voteLoop, herr']
    | succ k' =>
      obtain ⟨r, hr⟩ := hok 0 (Nat.succ_pos k')
      have hr' : submit i (mkVotePayload sid ctx t0 t1 sel q) = Except.ok r := by
        simpa using hr
      have hk' : k' < rest.length := Nat.lt_of_succ_lt_succ hk
      have ihres := ih (i + 1) k' hk' e
        (fun j hj => by
          obtain ⟨r2, hr2⟩ := hok (j + 1) (Nat.succ_lt_succ hj)
          refine ⟨r2, ?_⟩
          have : i + (j + 1) = i + 1 + j := by omega
          rw [← this]
          exact hr2)
        (by
          have : i + (k' + 1) = i + 1 + k' := by omega
          rw [← this]
          exact herr)
      have h1 : (voteLoop submit sid ctx t0 t1 sel i (q :: rest)).1 =
          mkVotePayload sid ctx t0 t1 sel q ::
            (voteLoop submit sid ctx t0 t1 sel (i + 1) rest).1 := by
        simp [voteLoop, hr']
      have h2 : (voteLoop submit sid ctx t0 t1 sel i (q :: rest)).2 =
          match (voteLoop submit sid ctx t0 t1 sel (i + 1) rest).2 with
          | Except.error e2 => Except.error e2
          | Except.ok rs => Except.ok (r :: rs) := by
        simp [voteLoop, hr']
      refine ⟨?_, ?_⟩
      · rw [h1]; simp [ihres.1]
      · rw [h2, ihres.2]

/-- Helper: if the loop returns success, it issued exactly one request per
question, in question order, and the responses line up index-wise with the
requests. -/
theorem voteLoop_all_ok
    (submit : Nat → VotePayload → Except ApiError VoteResponse)
    (sid : Nat) (ctx : SourceContext) (t0 t1 : String) (sel : List (Nat × Nat)) :
    ∀ (qs : List Question) (i : Nat) (t : List VotePayload) (rs : List VoteResponse),
    voteLoop submit sid ctx t0 t1 sel i qs = (t, Except.ok rs) →
    t = qs.map (mkVotePayload sid ctx t0 t1 sel) ∧
    rs.length = qs.length ∧
    (∀ j (hj : j < qs.length), ∃ r, rs.get? j = some r ∧
      submit (i + j) (mkVotePayload sid ctx t0 t1 sel (qs.get ⟨j, hj⟩)) = Except.ok r) := by
  intro qs
  induction qs with
  | nil =>
    intro i t rs h
    simp [voteLoop] at h
    obtain ⟨ht, hrs⟩ := h
    subst ht; subst hrs
    exact ⟨rfl, rfl, fun j hj => absurd hj (by simp)⟩
  | cons q rest ih =>
    intro i t rs h
    simp only [voteLoop] at h
    cases hs : submit i (mkVotePayload sid ctx t0 t1 sel q) with
    | error e => rw [hs] at h; simp at h
    | ok r =>
      rw [hs] at h
      simp only at h
      cases hn : (voteLoop submit sid ctx t0 t1 sel (i + 1) rest).2 with
      | error e => rw [hn] at h; simp at h
      | ok rs' =>
        rw [hn] at h
        have hpair := Prod.mk.injEq .. ▸ h
        have ht : t = mkVotePayload sid ctx t0 t1 sel q ::
            (voteLoop submit sid ctx t0 t1 sel (i + 1) rest).1 := by
          have := congrArg Prod.fst h
          simpa using this.symm
        have hrs : rs = r :: rs' := by
          have := congrArg Prod.snd h
          simp at this
          exact this.symm
        have ihres := ih (i + 1) (voteLoop submit sid ctx t0 t1 sel (i + 1) rest).1 rs'
          (by rw [← hn])
        subst ht; subst hrs
        refine ⟨by rw [ihres.1]; simp, by simp [ihres.2.1], fun j hj => ?_⟩
        cases j with
        | zero => exact ⟨r, by simp, by simpa using hs⟩
        | succ j' =>
          obtain ⟨r2, hg, hs2⟩ := ihres.2.2 j' (by simpa using Nat.lt_of_succ_lt_succ hj)
          refine ⟨r2, by simpa using hg, ?_⟩
          have : i + (j' + 1) = i + 1 + j' := by omega
          rw [this]
          simpa using hs2

/-! Concrete fixtures used by the witnesses below. -/

def wQ1 : Question := ⟨1, "q1", 1, [⟨10, "a", true⟩, ⟨11, "b", true⟩]⟩
def wQ2 : Question := ⟨2, "q2", 2, [⟨20, "c", true⟩]⟩
def wSurvey : SurveyStructure := ⟨7, "P", none, none, true, none, [wQ1, wQ2]⟩
def wPrev : VotePost := ⟨none, none, none, [], [], false, [], none⟩
def wFresh : SourceContext := ⟨none, none, none, none, some "desktop", none, none⟩
def wErr : ApiError := ⟨some 500, "boom", none⟩
def wSubmitFail1 : Nat → VotePayload → Except ApiError VoteResponse :=
  fun i _ => if i = 0 then Except.ok ⟨100, none, none⟩ else Except.error wErr
def wSubmitOk : Nat → VotePayload → Except ApiError VoteResponse :=
  fun i _ => Except.ok ⟨100 + i, none, none⟩
def wSel : List (Nat × Nat) := [(1, 10), (2, 20)]

/-- C1: if the first `k` vote requests of a fully validated attempt
succeed and request `k + 1` fails with error `e`, the attempt stops
immediately (exactly `k + 1` requests are issued), the earlier successful
results are discarded from the visible result set (the stored result list
is empty), exactly the mapped error message is shown in their place, and
the thank-you transition does not happen. -/
theorem vote_failure_discards_partial_results
    (prev : VotePost) (st : SurveyStructure) (sid : Nat) (sel : List (Nat × Nat))
    (fresh : SourceContext) (stored : Option SourceContext) (t0 t1 : String)
    (submit : Nat → VotePayload → Except ApiError VoteResponse) (k : Nat) (e : ApiError)
    (hk : k < st.questions.length)
    (hans : ∀ q ∈ st.questions, selFalsy sel q.id = false)
    (hok : ∀ j (hj : j < k), ∃ r, submit j
      (mkVotePayload sid (mergedContext fresh stored) t0 t1 sel
        (st.questions.get ⟨j, Nat.lt_trans hj hk⟩)) = Except.ok r)
    (herr : submit k (mkVotePayload sid (mergedContext fresh stored) t0 t1 sel
      (st.questions.get ⟨k, hk⟩)) = Except.error e) :
    (handleVote prev (some st) (some sid) sel fresh stored t0 t1 submit).voteResults = [] ∧
    (handleVote prev (some st) (some sid) sel fresh stored t0 t1 submit).errorMessage =
      some (jsStrOr (mapApiErrorMessage e).message voteFailDefaultMsg) ∧
    (handleVote prev (some st) (some sid) sel fresh stored t0 t1 submit).requests.length =
      k + 1 ∧
    (handleVote prev (some st) (some sid) sel fresh stored t0 t1 submit).showThankYou =
      false := by
  have hfil : st.questions.filter (fun q => selFalsy sel q.id) = [] := by
    rw [List.filter_eq_nil_iff]
    intro q hq
    simp [hans q hq]
  have hloop := voteLoop_first_error submit sid (mergedContext fresh stored) t0 t1 sel
    st.questions 0 k hk e (fun j hj => by simpa using hok j hj) (by simpa using herr)
  cases hvl : voteLoop submit sid (mergedContext fresh stored) t0 t1 sel 0 st.questions with
  | mk t res =>
    rw [hvl] at hloop
    obtain ⟨hlen, hres⟩ := hloop
    simp only at hlen hres
    subst hres
    simp [handleVote, hfil, hvl, hlen]

/-- C1 witness: the failure contract evaluated on a two-question survey
whose second request fails. -/
theorem vote_failure_discards_partial_results_witness :
    (handleVote wPrev (some wSurvey) (some 7) wSel wFresh none "t0" "t1"
      wSubmitFail1).voteResults = [] ∧
    (handleVote wPrev (some wSurvey) (some 7) wSel wFresh none "t0" "t1"
      wSubmitFail1).requests.length = 2 ∧
    (handleVote wPrev (some wSurvey) (some 7) wSel wFresh none "t0" "t1"
      wSubmitFail1).errorMessage =
      some (jsStrOr (mapApiErrorMessage wErr).message voteFailDefaultMsg) := by
  have h := vote_failure_discards_partial_results wPrev wSurvey 7 wSel wFresh none "t0" "t1"
    wSubmitFail1 1 wErr (by decide) (by decide)
    (fun j hj => ⟨⟨100, none, none⟩, by
      have hj0 : j = 0 := Nat.lt_one_iff.mp hj
      subst hj0
      rfl⟩)
    rfl
  exact ⟨h.1, h.2.2.1, h.2.1⟩

/-- C2 (counterexample): the claim "the missing-question id list equals
exactly the ids of the unanswered questions" (unanswered = no entry in
the selection map) is false on the code: with a recorded selection of
option id 0 for question 1 and no entry for question 2, question 2 is
unanswered, but the code's missing list is `[1, 2]`, not `[2]`. -/
theorem unanswered_ids_zero_entry_counterexample :
    (∃ q ∈ wSurvey.questions, selLookup [(1, 0)] q.id = none) ∧
    (handleVote wPrev (some wSurvey) (some 7) [(1, 0)] wFresh none "t0" "t1"
      wSubmitOk).missingQuestionIds ≠ specUnansweredIds wSurvey [(1, 0)] := by
  decide

/-- Helper: `handleVote`'s validation branch, taken whenever some
question's recorded option id is absent or 0. -/
theorem handleVote_validation_branch
    (prev : VotePost) (st : SurveyStructure) (sid : Nat) (sel : List (Nat × Nat))
    (fresh : SourceContext) (stored : Option SourceContext) (t0 t1 : String)
    (submit : Nat → VotePayload → Except ApiError VoteResponse)
    (h : ∃ q ∈ st.questions, selFalsy sel q.id = true) :
    (handleVote prev (some st) (some sid) sel fresh stored t0 t1 submit).requests = [] ∧
    (handleVote prev (some st) (some sid) sel fresh stored t0 t1 submit).errorMessage =
      some validationAllMsg ∧
    (handleVote prev (some st) (some sid) sel fresh stored t0 t1 submit).errorDetails =
      none ∧
    (handleVote prev (some st) (some sid) sel fresh stored t0 t1 submit).errorStatus =
      none ∧
    (handleVote prev (some st) (some sid) sel fresh stored t0 t1
        submit).missingQuestionIds =
      (st.questions.filter (fun q => selFalsy sel q.id)).map (·.id) := by
  obtain ⟨q, hq, hf⟩ := h
  have hne : st.questions.filter (fun q => selFalsy sel q.id) ≠ [] :=
    List.ne_nil_of_mem (List.mem_filter.mpr ⟨hq, hf⟩)
  have hlen : (st.questions.filter (fun q => selFalsy sel q.id)).length > 0 :=
    List.length_pos.mpr hne
  simp [handleVote, hlen]

/-- C2 (amended): for every submission attempt in which at least one
question of the loaded survey is unanswered under the code's test (its
recorded option id is absent or 0), the controller issues zero network
requests, sets the validation error message (clearing details and
status), and records a missing-question id list equal exactly to the ids
of the questions whose recorded option id is absent or 0, in survey
order. -/
theorem unanswered_blocks_submission
    (prev : VotePost) (st : SurveyStructure) (sid : Nat) (sel : List (Nat × Nat))
    (fresh : SourceContext) (stored : Option SourceContext) (t0 t1 : String)
    (submit : Nat → VotePayload → Except ApiError VoteResponse)
    (h : ∃ q ∈ st.questions, selFalsy sel q.id = true) :
    (handleVote prev (some st) (some sid) sel fresh stored t0 t1 submit).requests = [] ∧
    (handleVote prev (some st) (some sid) sel fresh stored t0 t1 submit).errorMessage =
      some validationAllMsg ∧
    (handleVote prev (some st) (some sid) sel fresh stored t0 t1 submit).errorDetails =
      none ∧
    (handleVote prev (some st) (some sid) sel fresh stored t0 t1 submit).errorStatus =
      none ∧
    (handleVote prev (some st) (some sid) sel fresh stored t0 t1
        submit).missingQuestionIds =
      (st.questions.filter (fun q => selFalsy sel q.id)).map (·.id) :=
  handleVote_validation_branch prev st sid sel fresh stored t0 t1 submit h

/-- C2 witness: the amended validation contract evaluated with question 2
unanswered. -/
theorem unanswered_blocks_submission_witness :
    (handleVote wPrev (some wSurvey) (some 7) [(1, 10)] wFresh none "t0" "t1"
      wSubmitOk).requests = [] ∧
    (handleVote wPrev (some wSurvey) (some 7) [(1, 10)] wFresh none "t0" "t1"
      wSubmitOk).errorMessage = some validationAllMsg ∧
    (handleVote wPrev (some wSurvey) (some 7) [(1, 10)] wFresh none "t0" "t1"
      wSubmitOk).missingQuestionIds =
      (wSurvey.questions.filter (fun q => selFalsy [(1, 10)] q.id)).map (·.id) := by
  have h := unanswered_blocks_submission wPrev wSurvey 7 [(1, 10)] wFresh none "t0" "t1"
    wSubmitOk ⟨wQ2, by decide, by decide⟩
  exact ⟨h.1, h.2.1, h.2.2.2.2⟩

/-- C3: for every fully successful submission attempt, exactly one vote
request per question is issued, in question order (request `j` is the
payload of question `j`, issued as the `j`-th call), and the stored
result list is exactly the responses in submission order, with one result
per question. -/
theorem vote_success_sequential_requests
    (prev : VotePost) (st : SurveyStructure) (sid : Nat) (sel : List (Nat × Nat))
    (fresh : SourceContext) (stored : Option SourceContext) (t0 t1 : String)
    (submit : Nat → VotePayload → Except ApiError VoteResponse)
    (rs : List VoteResponse)
    (hans : ∀ q ∈ st.questions, selFalsy sel q.id = false)
    (hok : (voteLoop submit sid (mergedContext fresh stored) t0 t1 sel 0 st.questions).2 =
      Except.ok rs) :
    (handleVote prev (some st) (some sid) sel fresh stored t0 t1 submit).requests =
      st.questions.map (mkVotePayload sid (mergedContext fresh stored) t0 t1 sel) ∧
    (handleVote prev (some st) (some sid) sel fresh stored t0 t1 submit).voteResults = rs ∧
    rs.length = st.questions.length ∧
    (handleVote prev (some st) (some sid) sel fresh stored t0 t1 submit).showThankYou =
      true ∧
    (handleVote prev (some st) (some sid) sel fresh stored t0 t1 submit).errorMessage =
      none ∧
    (∀ j (hj : j < st.questions.length), ∃ r, rs.get? j = some r ∧
      submit j (mkVotePayload sid (mergedContext fresh stored) t0 t1 sel
        (st.questions.get ⟨j, hj⟩)) = Except.ok r) := by
  have hfil : st.questions.filter (fun q => selFalsy sel q.id) = [] := by
    rw [List.filter_eq_nil_iff]
    intro q hq
    simp [hans q hq]
  cases hvl : voteLoop submit sid (mergedContext fresh stored) t0 t1 sel 0 st.questions with
  | mk t res =>
    rw [hvl] at hok
    simp only at hok
    subst hok
    have hall := voteLoop_all_ok submit sid (mergedContext fresh stored) t0 t1 sel
      st.questions 0 t rs hvl
    refine ⟨?_, ?_, hall.2.1, ?_, ?_, ?_⟩
    · simp [handleVote, hfil, hvl, hall.1]
    · simp [handleVote, hfil, hvl]
    · simp [handleVote, hfil, hvl]
    · simp [handleVote, hfil, hvl]
    · intro j hj
      obtain ⟨r, hg, hs⟩ := hall.2.2 j hj
      exact ⟨r, hg, by simpa using hs⟩

/-- C3 witness: the success contract evaluated on the two-question survey
with a network that always succeeds. -/
theorem vote_success_sequential_requests_witness :
    (handleVote wPrev (some wSurvey) (some 7) wSel wFresh none "t0" "t1"
      wSubmitOk).requests =
      wSurvey.questions.map
        (mkVotePayload 7 (mergedContext wFresh none) "t0" "t1" wSel) ∧
    (handleVote wPrev (some wSurvey) (some 7) wSel wFresh none "t0" "t1"
      wSubmitOk).voteResults = [⟨100, none, none⟩, ⟨101, none, none⟩] ∧
    (handleVote wPrev (some wSurvey) (some 7) wSel wFresh none "t0" "t1"
      wSubmitOk).showThankYou = true := by
  have h := vote_success_sequential_requests wPrev wSurvey 7 wSel wFresh none "t0" "t1"
    wSubmitOk [⟨100, none, none⟩, ⟨101, none, none⟩] (by decide) rfl
  exact ⟨h.1, h.2.1, h.2.2.2.1⟩

/-- C10: for every question of the loaded survey whose recorded selection
is the option id 0, the controller classifies it as unanswered: the
attempt is rejected with the validation error, the question's id appears
in the missing-question id list, and no network request is issued —
because answeredness is tested by numeric truthiness of the recorded
option id. -/
theorem zero_option_id_counts_unanswered
    (prev : VotePost) (st : SurveyStructure) (sid : Nat) (sel : List (Nat × Nat))
    (fresh : SourceContext) (stored : Option SourceContext) (t0 t1 : String)
    (submit : Nat → VotePayload → Except ApiError VoteResponse) (q : Question)
    (hq : q ∈ st.questions) (hsel : selLookup sel q.id = some 0) :
    (handleVote prev (some st) (some sid) sel fresh stored t0 t1 submit).errorMessage =
      some validationAllMsg ∧
    q.id ∈ (handleVote prev (some st) (some sid) sel fresh stored t0 t1
      submit).missingQuestionIds ∧
    (handleVote prev (some st) (some sid) sel fresh stored t0 t1 submit).requests = [] := by
  have hf : selFalsy sel q.id = true := by simp [selFalsy, hsel]
  have h := handleVote_validation_branch prev st sid sel fresh stored t0 t1 submit
    ⟨q, hq, hf⟩
  refine ⟨h.2.1, ?_, h.1⟩
  rw [h.2.2.2.2]
  exact List.mem_map.mpr ⟨q, List.mem_filter.mpr ⟨hq, hf⟩, rfl⟩

/-- C10 witness: the truthiness contract evaluated with question 1
recorded as option id 0. -/
theorem zero_option_id_counts_unanswered_witness :
    (handleVote wPrev (some wSurvey) (some 7) [(1, 0), (2, 20)] wFresh none "t0" "t1"
      wSubmitOk).errorMessage = some validationAllMsg ∧
    (1 : Nat) ∈ (handleVote wPrev (some wSurvey) (some 7) [(1, 0), (2, 20)] wFresh none
      "t0" "t1" wSubmitOk).missingQuestionIds ∧
    (handleVote wPrev (some wSurvey) (some 7) [(1, 0), (2, 20)] wFresh none "t0" "t1"
      wSubmitOk).requests = [] := by
  have h := zero_option_id_counts_unanswered wPrev wSurvey 7 [(1, 0), (2, 20)] wFresh none
    "t0" "t1" wSubmitOk wQ1 (by decide) (by decide)
  exact ⟨h.1, h.2.1, h.2.2⟩

/-- C4: the loader applies stale responses.  Concrete run refuting the
claim: the app mounts at survey 1 (load in flight), navigates to survey 2
(second load in flight), the load for 2 resolves first, then the stale
load for 1 resolves — and is applied: the final state shows survey 1's
structure while the current identifier is 2.  The `fetchStructure` effect
installs no staleness guard, so the view reflects the outcome of an old
identifier's load, contradicting the required race guard. -/
theorem stale_load_overwrites_newer :
    (runEvents (initialAppState (some 1))
      [AppEvent.popNav (some 2),
        AppEvent.loadArrive 2 (Except.ok ⟨2, "Pesquisa B", none, none, true, none, []⟩),
        AppEvent.loadArrive 1 (Except.ok ⟨1, "Pesquisa A", none, none, true, none, []⟩)]).map
      (fun s => (s.surveyId, s.structure_)) =
    some (some 2, some ⟨1, "Pesquisa A", none, none, true, none, []⟩) := by
  rfl

/-- Helper: resolving a structure load never touches the result list. -/
theorem applyLoadOutcome_voteResults (o : Except ApiError SurveyStructure) (s : AppState) :
    (applyLoadOutcome o s).voteResults = s.voteResults := by
  cases o with
  | ok data =>
    by_cases h : data.ativo <;> simp [applyLoadOutcome, h]
  | error e => simp [applyLoadOutcome]

/-- Helper: resolving a structure load never touches the thank-you flag. -/
theorem applyLoadOutcome_showThankYou (o : Except ApiError SurveyStructure) (s : AppState) :
    (applyLoadOutcome o s).showThankYou = s.showThankYou := by
  cases o with
  | ok data =>
    by_cases h : data.ativo <;> simp [applyLoadOutcome, h]
  | error e => simp [applyLoadOutcome]

/-- Helper invariant: in every reachable state, a non-empty stored result
list implies the thank-you flag is set (results are stored only together
with the thank-you transition, and everything that drops the flag also
clears the results). -/
theorem reachable_results_imp_thankYou {s : AppState} (h : Reachable s) :
    s.voteResults ≠ [] → s.showThankYou = true := by
  induction h with
  | init oid =>
    intro hne
    exfalso
    apply hne
    cases oid <;> rfl
  | step e hr hstep ih =>
    intro hne
    rename_i s0 s1
    cases e with
    | popNav oid =>
      simp only [appStep, Option.some.injEq] at hstep
      subst hstep
      exfalso
      apply hne
      by_cases hid : oid = s0.surveyId
      · simp [hid, popReset]
      · simp only [hid, if_false]
        cases hoid : oid <;> simp [startLoad, popReset, hoid]
    | loadArrive sid outcome =>
      simp only [appStep] at hstep
      by_cases hp : s0.pendingLoads.contains sid
      · rw [if_pos hp] at hstep
        have hs1 := Option.some.inj hstep
        subst hs1
        rw [applyLoadOutcome_showThankYou]
        rw [applyLoadOutcome_voteResults] at hne
        exact ih hne
      · rw [if_neg hp] at hstep
        exact absurd hstep (by simp)
    | selectOpt qid oid =>
      simp only [appStep] at hstep
      cases hst : s0.structure_ with
      | none => rw [hst] at hstep; exact absurd hstep (by simp)
      | some st =>
        rw [hst] at hstep
        simp only at hstep
        by_cases hcond : (!s0.showThankYou && !(s0.errorStatus == some 404) &&
            st.questions.any fun q => q.id == qid && q.options.any fun o => o.id == oid) = true
        · rw [if_pos hcond] at hstep
          have hs1 := Option.some.inj hstep
          subst hs1
          exact absurd rfl hne
        · rw [if_neg hcond] at hstep
          exact absurd hstep (by simp)
    | voteStart =>
      simp only [appStep] at hstep
      cases hst : s0.structure_ with
      | none => rw [hst] at hstep; exact absurd hstep (by simp)
      | some st =>
        rw [hst] at hstep
        simp only at hstep
        by_cases hcond : (!s0.showThankYou && !(s0.errorStatus == some 404) &&
            !s0.submitting && !st.questions.isEmpty) = true
        · rw [if_pos hcond] at hstep
          have hs1 := Option.some.inj hstep
          subst hs1
          unfold voteStartStep at hne ⊢
          cases hsid : s0.surveyId with
          | none =>
            simp only [hsid] at hne ⊢
            exact ih hne
          | some i =>
            simp only [hsid] at hne ⊢
            by_cases hun : (st.questions.filter
                (fun q => selFalsy s0.selectedOptions q.id)).length > 0
            · rw [if_pos hun] at hne ⊢
              exact ih hne
            · rw [if_neg hun] at hne
              exact absurd rfl hne
        · rw [if_neg hcond] at hstep
          exact absurd hstep (by simp)
    | voteFinish outcome =>
      simp only [appStep] at hstep
      by_cases hp : s0.pendingVote
      · rw [if_pos hp] at hstep
        have hs1 := Option.some.inj hstep
        subst hs1
        cases outcome with
        | ok rs => rfl
        | error e =>
          simp only at hne ⊢
          exact ih hne
      · rw [if_neg hp] at hstep
        exact absurd hstep (by simp)

/-- C9: in every reachable state exactly one of the five view outcomes
is active: the thank-you screen, the 404 screen, the form with the error
panel, the form with the success panel, or the neutral form.  In
particular the success panel and the error panel are never displayed
simultaneously, and the thank-you and 404 screens exclude the form and
its panels. -/
theorem view_outcomes_exclusive (s : AppState) (h : Reachable s) :
    (rendersThankYou s ∨ rendersNotFound s ∨ formErrorPanel s ∨ formSuccessPanel s ∨
      formNeutral s) ∧
    ¬(formSuccessPanel s ∧ formErrorPanel s) ∧
    ¬(rendersThankYou s ∧ rendersNotFound s) ∧
    ¬(rendersThankYou s ∧ rendersForm s) ∧
    ¬(rendersNotFound s ∧ rendersForm s) ∧
    ¬(formNeutral s ∧ formErrorPanel s) ∧
    ¬(formNeutral s ∧ formSuccessPanel s) := by
  have hinv := reachable_results_imp_thankYou h
  by_cases hty : s.showThankYou = true
  · simp [rendersThankYou, rendersNotFound, rendersForm, formErrorPanel,
      formSuccessPanel, formNeutral, hty]
  · have hty' : s.showThankYou = false := by
      cases hsty : s.showThankYou
      · rfl
      · exact absurd hsty hty
    have hres : s.voteResults = [] := by
      by_contra hne
      exact hty (hinv hne)
    by_cases h404 : s.errorStatus = some 404
    · simp [rendersThankYou, rendersNotFound, rendersForm, formErrorPanel,
        formSuccessPanel, formNeutral, hty', h404, hres]
    · by_cases herr : s.errorMessage = none
      · simp [rendersThankYou, rendersNotFound, rendersForm, formErrorPanel,
          formSuccessPanel, formNeutral, hty', h404, hres, herr]
      · simp [rendersThankYou, rendersNotFound, rendersForm, formErrorPanel,
          formSuccessPanel, formNeutral, hty', h404, hres, herr]

/-- C9 witness: the exclusivity contract evaluated at the reachable
initial mount state with no path identifier. -/
theorem view_outcomes_exclusive_witness :
    Reachable (initialAppState none) ∧
    ¬(formSuccessPanel (initialAppState none) ∧ formErrorPanel (initialAppState none)) ∧
    (rendersThankYou (initialAppState none) ∨ rendersNotFound (initialAppState none) ∨
      formErrorPanel (initialAppState none) ∨ formSuccessPanel (initialAppState none) ∨
      formNeutral (initialAppState none)) :=
  ⟨Reachable.init none,
    (view_outcomes_exclusive (initialAppState none) (Reachable.init none)).2.1,
    (view_outcomes_exclusive (initialAppState none) (Reachable.init none)).1⟩

end SurveyFrontend
